import Mathlib

/-!
Verification development for the hitcon-online client core:
the player state / synchronization model (`common/gamelib/player.mjs`)
and the map renderer (guidepost extension client and `MapRenderer`).

JavaScript numbers are embedded as exact rationals (`ℚ`); optional /
possibly-`undefined` fields are embedded as `Option`; code paths that would
throw a `TypeError` (reading a property of `undefined`) return `none`.
-/

/-- Modelled from the spec: `Coordinate` is an immutable floating-point
`(x, y)` pair in map units, compared by field equality.  The `MapCoord`
class itself lives in `common/maplib/map.mjs`, which is outside the two
source files embedded here. -/
structure MapCoord where
  x : ℚ
  y : ℚ
deriving DecidableEq, Repr

/-- Modelled from the spec: `MapCoord.fromObject` builds a coordinate from a
plain object carrying the same fields (value copy). -/
def MapCoord.fromObject (o : MapCoord) : MapCoord :=
  { x := o.x, y := o.y }

/-- Modelled from the spec: coordinate equality is value-based field
equality (`equalsTo` in `common/maplib/map.mjs`). -/
def MapCoord.equalsTo (a b : MapCoord) : Bool :=
  a.x == b.x && a.y == b.y

/-- Constant `PLAYER_MOVE_ANIMATION_FRAME_RATE = 100` ms per frame
(`player.mjs` line 12). -/
def PLAYER_MOVE_ANIMATION_FRAME_RATE : ℚ := 100

/-- The `Player` class of `player.mjs`.  `mapCoord` and `lastMovingTime`
start out `undefined`; `removed` and `_previousMapCoord` are not set by the
constructor at all (they only appear after an update), so they are `Option`
fields that start as `none`.  `_previousMapCoord` is embedded under the
name `previousMapCoord`. -/
structure Player where
  playerID : String
  displayName : String
  displayChar : String
  mapCoord : Option MapCoord
  facing : String
  lastMovingTime : Option ℚ
  removed : Option Bool
  previousMapCoord : Option MapCoord
deriving DecidableEq, Repr

/-- The `Player` constructor (`player.mjs` lines 22-38). -/
def Player.create (playerID : String) : Player :=
  { playerID := playerID
    displayName := playerID
    displayChar := "char1"
    mapCoord := none
    facing := "D"
    lastMovingTime := none
    removed := none
    previousMapCoord := none }

/-- The `PlayerSyncMessage` class after construction.  The constructor
(`player.mjs` lines 180-194) applies `removed ?? false`, so `removed` is
never `undefined` on a constructed message; every other field except
`playerID` may be absent. -/
structure PlayerSyncMessage where
  playerID : String
  mapCoord : Option MapCoord
  facing : Option String
  displayName : Option String
  displayChar : Option String
  removed : Bool
  clientTime : Option ℚ
  updateSuccess : Option Bool
deriving DecidableEq, Repr

/-- The `PlayerSyncMessage` constructor (`player.mjs` lines 180-194).
When `playerID` is `undefined` the source logs the error message below via
`console.error` and returns before assigning any field, leaving the
instance unpopulated; that fallible outcome is embedded as `Except.error`
carrying the logged message.  Otherwise all fields are assigned, with
`removed ?? false`. -/
def PlayerSyncMessage.construct (playerID : Option String)
    (mapCoord : Option MapCoord) (facing displayName displayChar : Option String)
    (removed : Option Bool) (clientTime : Option ℚ)
    (updateSuccess : Option Bool) : Except String PlayerSyncMessage :=
  match playerID with
  | none =>
    Except.error "playerID of class PlayerSyncMessage should not be undefined."
  | some pid =>
    Except.ok
      { playerID := pid
        mapCoord := mapCoord
        facing := facing
        displayName := displayName
        displayChar := displayChar
        removed := removed.getD false
        clientTime := clientTime
        updateSuccess := updateSuccess }

/-- Embeds `Player.updateFromMessage` (`player.mjs` lines 83-100).
`Date.now()` is passed in as `now`.  Returns the boolean result of the
source together with the updated player.  Note `msg.removed` is always
defined on a constructed message (the constructor defaults it to `false`),
so the `if (msg.removed !== undefined)` test of the source always
passes. -/
def Player.updateFromMessage (p : Player) (msg : PlayerSyncMessage)
    (now : ℚ) : Bool × Player :=
  if msg.playerID ≠ p.playerID then
    (false, p)
  else
    let p1 :=
      match msg.mapCoord with
      | none => p
      | some mc =>
        let pa :=
          match p.mapCoord with
          | some cur =>
            if !(MapCoord.equalsTo mc cur) then
              { p with lastMovingTime := some now }
            else
              p
          | none => p
        let pb := { pa with previousMapCoord := some (p.mapCoord.getD mc) }
        { pb with mapCoord := some mc }
    let p2 :=
      match msg.facing with
      | some f => { p1 with facing := f }
      | none => p1
    let p3 :=
      match msg.displayName with
      | some d => { p2 with displayName := d }
      | none => p2
    let p4 :=
      match msg.displayChar with
      | some d => { p3 with displayChar := d }
      | none => p3
    let p5 := { p4 with removed := some msg.removed }
    (true, p5)

/-- The object returned by `Player.getDrawInfo` (`player.mjs` lines 70-75).
In the non-moving branch `mapCoord` is whatever `this.mapCoord` holds,
which may be `undefined`, hence the `Option`. -/
structure DrawInfo where
  mapCoord : Option MapCoord
  displayChar : String
  facing : String
  displayName : String
deriving DecidableEq, Repr

/-- Embeds `Player.getDrawInfo` (`player.mjs` lines 44-76).  `Date.now()`
is the parameter `now`; the move interval `PLAYER_MOVE_TIME_INTERVAL` is
imported by the source from `move-check.mjs` (outside the embedded files)
and is passed in as the parameter `T`, matching the shared constant `T` of
the spec.  When `lastMovingTime` is `undefined`, `lastMovingTime + T` is
`NaN` in the source and `now < NaN` is false, so the non-moving branch is
taken.  In the moving branch the source reads `this.mapCoord` (through
`MapCoord.fromObject`) and `this._previousMapCoord.x`; if either is
`undefined` it throws, embedded as `none`.  The function only mutates a
fresh copy `inter`, never `this.mapCoord` itself, so it is a pure function
of the player and `now`. -/
def Player.getDrawInfo (p : Player) (T now : ℚ) : Option DrawInfo :=
  match p.lastMovingTime with
  | none =>
    some { mapCoord := p.mapCoord, displayChar := p.displayChar,
           facing := p.facing, displayName := p.displayName }
  | some lastMovingTime =>
    let smoothMoveEnd := lastMovingTime + T
    if now < smoothMoveEnd then
      match p.mapCoord, p.previousMapCoord with
      | some mapCoord, some previousMapCoord =>
        let frac := (now - lastMovingTime) / T
        let interX := (1 - frac) * previousMapCoord.x + frac * mapCoord.x
        let interY := (1 - frac) * previousMapCoord.y + frac * mapCoord.y
        let phase := (Int.floor (now / PLAYER_MOVE_ANIMATION_FRAME_RATE)) % 4
        let retFacing :=
          if phase = 0 then p.facing ++ "R"
          else if phase = 2 then p.facing ++ "L"
          else p.facing
        some { mapCoord := some { x := interX, y := interY },
               displayChar := p.displayChar,
               facing := retFacing,
               displayName := p.displayName }
      | _, _ => none
    else
      some { mapCoord := p.mapCoord, displayChar := p.displayChar,
             facing := p.facing, displayName := p.displayName }

/-- The JSON wire shape of a serialized `Player` (`JSON.stringify` of
`Player.toJSON`, `player.mjs` lines 106-112).  `toJSON` copies the six
keys of `ATTRIBUTES`; `playerID`, `displayName`, `displayChar` and
`facing` are always defined strings, while `mapCoord` and
`lastMovingTime` may be `undefined`, in which case `JSON.stringify` drops
the key — embedded as `none`. -/
structure PlayerWire where
  playerID : String
  displayName : String
  displayChar : String
  mapCoord : Option MapCoord
  facing : String
  lastMovingTime : Option ℚ
deriving DecidableEq, Repr

/-- Embeds `Player.toJSON` (`player.mjs` lines 106-112) composed with
`JSON.stringify` dropping `undefined` values: one entry per `ATTRIBUTES`
key. -/
def Player.toJSON (p : Player) : PlayerWire :=
  { playerID := p.playerID
    displayName := p.displayName
    displayChar := p.displayChar
    mapCoord := p.mapCoord
    facing := p.facing
    lastMovingTime := p.lastMovingTime }

/-- Embeds `Player.fromObject` (`player.mjs` lines 119-138): build a fresh
player from the id, then `assignIfDefined` each `ATTRIBUTES` key that is
present in the object, then the special case rebuilding `mapCoord` and
`_previousMapCoord` through `MapCoord.fromObject` when `mapCoord` is
defined.  `removed` is not in `ATTRIBUTES`, so it keeps the value of the
fresh player (absent). -/
def Player.fromObject (w : PlayerWire) : Player :=
  let ret := Player.create w.playerID
  let ret :=
    { ret with
      playerID := w.playerID
      displayName := w.displayName
      displayChar := w.displayChar
      mapCoord := w.mapCoord
      facing := w.facing
      lastMovingTime := w.lastMovingTime }
  match w.mapCoord with
  | some mc =>
    { ret with
      mapCoord := some (MapCoord.fromObject mc)
      previousMapCoord := some (MapCoord.fromObject mc) }
  | none => ret

/-- The JSON wire shape of a serialized `PlayerSyncMessage`
(`player.mjs` lines 200-212): `playerID` always present, every other key
present only when the attribute is defined. -/
structure PlayerSyncMessageWire where
  playerID : String
  mapCoord : Option MapCoord
  facing : Option String
  displayName : Option String
  displayChar : Option String
  removed : Option Bool
  clientTime : Option ℚ
  updateSuccess : Option Bool
deriving DecidableEq, Repr

/-- Embeds `PlayerSyncMessage.toJSON` (`player.mjs` lines 200-212).  On a
constructed message `removed` is always defined (the constructor defaults
it to `false`), so its `!== undefined` test always includes the key. -/
def PlayerSyncMessage.toJSON (m : PlayerSyncMessage) : PlayerSyncMessageWire :=
  { playerID := m.playerID
    mapCoord := m.mapCoord
    facing := m.facing
    displayName := m.displayName
    displayChar := m.displayChar
    removed := some m.removed
    clientTime := m.clientTime
    updateSuccess := m.updateSuccess }

/-- Embeds `PlayerSyncMessage.fromObject` (`player.mjs` lines 219-229):
construct from `obj.playerID` (so `removed` starts at the default
`false`), then copy each defined field, rebuilding `mapCoord` via
`MapCoord.fromObject`. -/
def PlayerSyncMessage.fromObject (w : PlayerSyncMessageWire) : PlayerSyncMessage :=
  let ret : PlayerSyncMessage :=
    { playerID := w.playerID
      mapCoord := none
      facing := none
      displayName := none
      displayChar := none
      removed := false
      clientTime := none
      updateSuccess := none }
  let ret :=
    match w.mapCoord with
    | some mc => { ret with mapCoord := some (MapCoord.fromObject mc) }
    | none => ret
  let ret :=
    match w.facing with
    | some f => { ret with facing := some f }
    | none => ret
  let ret :=
    match w.displayName with
    | some d => { ret with displayName := some d }
    | none => ret
  let ret :=
    match w.displayChar with
    | some d => { ret with displayChar := some d }
    | none => ret
  let ret :=
    match w.removed with
    | some b => { ret with removed := b }
    | none => ret
  let ret :=
    match w.clientTime with
    | some t => { ret with clientTime := some t }
    | none => ret
  let ret :=
    match w.updateSuccess with
    | some u => { ret with updateSuccess := some u }
    | none => ret
  ret

/-- Constant `mapCellSize = 32` pixels (map-renderer source, line 4 of its
file). -/
def mapCellSize : ℚ := 32

/-- The geometric state of `MapRenderer`: the canvas pixel dimensions, the
map size in tiles (the `getMapSize()` collaborator result, embedded as two
fields), and the current `viewerPosition`. -/
structure MapRenderer where
  canvasWidth : ℚ
  canvasHeight : ℚ
  mapWidth : ℚ
  mapHeight : ℚ
  viewerX : ℚ
  viewerY : ℚ
deriving DecidableEq, Repr

/-- The local bound `minX = (this.canvas.width / 2) / mapCellSize` of
`setViewerPosition`. -/
def MapRenderer.minX (r : MapRenderer) : ℚ := (r.canvasWidth / 2) / mapCellSize

/-- The local bound `maxX = mapSize.width - minX` of `setViewerPosition`. -/
def MapRenderer.maxX (r : MapRenderer) : ℚ := r.mapWidth - r.minX

/-- The local bound `minY = (this.canvas.height / 2) / mapCellSize` of
`setViewerPosition`. -/
def MapRenderer.minY (r : MapRenderer) : ℚ := (r.canvasHeight / 2) / mapCellSize

/-- The local bound `maxY = mapSize.height - minY` of
`setViewerPosition`. -/
def MapRenderer.maxY (r : MapRenderer) : ℚ := r.mapHeight - r.minY

/-- Embeds `MapRenderer.setViewerPosition` (map-renderer source,
lines 135-145): clamp `x` to `[minX, maxX]` and `y` to `[minY, maxY]` via
`Math.min(Math.max(x, minX), maxX)` and store the result. -/
def MapRenderer.setViewerPosition (r : MapRenderer) (x y : ℚ) : MapRenderer :=
  { r with
    viewerX := min (max x r.minX) r.maxX
    viewerY := min (max y r.minY) r.maxY }

/-- Embeds `MapRenderer.canvasToMapCoordinate` (map-renderer source,
lines 154-160): `viewerPosition + (p - canvasCenter) / mapCellSize`,
componentwise, as a pair `(x, y)` of rationals. -/
def MapRenderer.canvasToMapCoordinate (r : MapRenderer) (x y : ℚ) : ℚ × ℚ :=
  (r.viewerX + (x - r.canvasWidth / 2) / mapCellSize,
   r.viewerY + (y - r.canvasHeight / 2) / mapCellSize)

/-- Embeds `MapRenderer.mapToCanvasCoordinate` (map-renderer source,
lines 169-175): `Math.floor(canvasCenter + (p - viewerPosition) *
mapCellSize)`, componentwise, integer output. -/
def MapRenderer.mapToCanvasCoordinate (r : MapRenderer) (x y : ℚ) : ℤ × ℤ :=
  (Int.floor (r.canvasWidth / 2 + (x - r.viewerX) * mapCellSize),
   Int.floor (r.canvasHeight / 2 + (y - r.viewerY) * mapCellSize))

/-- One step of the `ret &&= this._drawX()` sequence in
`MapRenderer.draw`: a layer draw is invoked only when the accumulator is
still `true` (JavaScript `&&=` short-circuits), and the accumulator
becomes the result of the invoked draw.  The first component of the output
is the final accumulator, the second records which layers were invoked. -/
def drawSeq (ret : Bool) : List Bool → Bool × List Bool
  | [] => (ret, [])
  | r :: rest =>
    let invoked := ret
    let next := drawSeq (ret && r) rest
    (next.1, invoked :: next.2)

/-- Embeds `MapRenderer.draw` (map-renderer source, lines 181-187):
`let ret = true; ret &&= this._drawGround(); ret &&= this._drawPlayers();
return ret;` — parametrized by the boolean results the two layer draws
would report if invoked (their canvas side effects are outside the model;
in the embedded source both always report `true`). -/
def MapRenderer.draw (groundResult playersResult : Bool) : Bool × List Bool :=
  drawSeq true [groundResult, playersResult]

/-- A registered draw layer.  Modelled from the spec: a LayerRegistry
entry is `(zIndex, name, drawFn, data)`; the draw callback and its data
are represented by the registered handler name (e.g.
`_drawWatermark`). -/
structure LayerEntry where
  zIndex : ℤ
  layerName : String
  drawFnName : String
deriving DecidableEq, Repr

/-- Modelled from the spec: `registerLayer` adds or replaces (last write
wins, by name) a layer entry; `registerCustomizedLayerToDraw` itself is
not among the embedded source files, only its guidepost caller
(`extensions/guidepost/common/client.mjs` lines 42-47). -/
def registerLayer (reg : List LayerEntry) (z : ℤ)
    (nm fn : String) : List LayerEntry :=
  (reg.filter (fun e => !(e.layerName == nm))) ++
    [{ zIndex := z, layerName := nm, drawFnName := fn }]

/-- The ordering on layer entries used at draw time: ascending `zIndex`. -/
def layerLE (a b : LayerEntry) : Prop := a.zIndex ≤ b.zIndex

instance : DecidableRel layerLE := fun a b => Int.decLe a.zIndex b.zIndex

instance : IsTotal LayerEntry layerLE :=
  ⟨fun a b => Int.le_total a.zIndex b.zIndex⟩

instance : IsTrans LayerEntry layerLE :=
  ⟨fun _ _ _ hab hbc => le_trans hab hbc⟩

/-- Modelled from the spec: at draw time the registered entries are
invoked in ascending `zIndex` order; `drawOrder` is the invocation
sequence of one `Draw()` pass over the registered layers. -/
def drawOrder (reg : List LayerEntry) : List LayerEntry :=
  List.insertionSort layerLE reg

/-- The registration constant of the guidepost extension
(`extensions/guidepost/common/client.mjs` line 5):
`zIndex: -10, layerName: "guidepost"`, registered with handler
`_drawWatermark`. -/
def LAYER_GUIDEPOST : LayerEntry :=
  { zIndex := -10, layerName := "guidepost", drawFnName := "_drawWatermark" }

/-- A player mid-interpolation: position `(6, 5)`, previous position
`(5, 5)`, last move at time `0`.  Used as concrete input below. -/
def c1Player : Player :=
  { playerID := "p1", displayName := "p1", displayChar := "char1",
    mapCoord := some { x := 6, y := 5 }, facing := "D",
    lastMovingTime := some 0, removed := none,
    previousMapCoord := some { x := 5, y := 5 } }

/-- A sync message whose position `(6, 5)` equals the current position of
`c1Player`. -/
def c1Msg : PlayerSyncMessage :=
  { playerID := "p1", mapCoord := some { x := 6, y := 5 }, facing := none,
    displayName := none, displayChar := none, removed := false,
    clientTime := none, updateSuccess := none }

/-- A sync message with a foreign id `p2`. -/
def c3Other : PlayerSyncMessage :=
  { playerID := "p2", mapCoord := some { x := 1, y := 1 }, facing := some "U",
    displayName := some "x", displayChar := some "char2", removed := true,
    clientTime := none, updateSuccess := none }

/-- A sync message carrying `removed = true` for player `p1`. -/
def c2Msg : PlayerSyncMessage :=
  { playerID := "p1", mapCoord := none, facing := none,
    displayName := none, displayChar := none, removed := true,
    clientTime := none, updateSuccess := none }

/-- A player that has processed a `removed = true` message, so its
`removed` field is present. -/
def c2Player : Player := ((Player.create "p1").updateFromMessage c2Msg 0).2

/-- A concrete renderer state: 64x64 pixel canvas, 10x10 tile map, so the
clamp range is `[1, 9]` on both axes. -/
def mr0 : MapRenderer :=
  { canvasWidth := 64, canvasHeight := 64, mapWidth := 10, mapHeight := 10,
    viewerX := 0, viewerY := 0 }

/-- Characterization of `Player.updateFromMessage` on a matching id:
returns `true` and the player record with each present message field
copied in, `lastMovingTime` refreshed exactly when the message position
differs from a set current position, and `_previousMapCoord` set to
`this.mapCoord ?? msg.mapCoord` whenever the message carries a
position. -/
theorem updateFromMessage_matched (p : Player) (msg : PlayerSyncMessage)
    (now : ℚ) (hid : msg.playerID = p.playerID) :
    p.updateFromMessage msg now =
      (true,
        { playerID := p.playerID
          displayName := msg.displayName.getD p.displayName
          displayChar := msg.displayChar.getD p.displayChar
          mapCoord :=
            match msg.mapCoord with
            | some mc => some mc
            | none => p.mapCoord
          facing := msg.facing.getD p.facing
          lastMovingTime :=
            match msg.mapCoord, p.mapCoord with
            | some mc, some cur =>
              if MapCoord.equalsTo mc cur then p.lastMovingTime else some now
            | _, _ => p.lastMovingTime
          removed := some msg.removed
          previousMapCoord :=
            match msg.mapCoord with
            | some mc => some (p.mapCoord.getD mc)
            | none => p.previousMapCoord }) := by
  obtain ⟨mid, mmc, mf, mdn, mdc, mrem, mct, mus⟩ := msg
  obtain ⟨pid, pdn, pdc, pmc, pf, plmt, prm, pprev⟩ := p
  simp only [PlayerSyncMessage.playerID] at hid
  subst hid
  cases mmc with
  | none =>
    cases mf <;> cases mdn <;> cases mdc <;>
      simp [Player.updateFromMessage]
  | some mc =>
    cases pmc with
    | none =>
      cases mf <;> cases mdn <;> cases mdc <;>
        simp [Player.updateFromMessage]
    | some cur =>
      cases hE : MapCoord.equalsTo mc cur <;>
        cases mf <;> cases mdn <;> cases mdc <;>
        simp [Player.updateFromMessage, hE]

/-- C1 (counterexample): the claim says `previousPosition` is updated if
and only if the incoming position differs from the current one — but on
`c1Player` (position `(6, 5)`, previous position `(5, 5)`) a message with
the equal position `(6, 5)` still rewrites `previousPosition` (to
`(6, 5)`), because the source assigns `_previousMapCoord` unconditionally
whenever the message carries a position. -/
theorem updateFromMessage_previousPosition_cex :
    c1Msg.mapCoord = c1Player.mapCoord ∧
    (c1Player.updateFromMessage c1Msg 100).2.previousMapCoord ≠
      c1Player.previousMapCoord := by decide

/-- C1 (amended): whenever an applied message carries a position,
`previousPosition` is set to the prior position value if the position of
the state was set — also when the incoming position equals it — and to
the new position if the position of the state was unset; `lastMoveTime`
is refreshed to `now` if and only if the incoming position differs from a
set current position. -/
theorem updateFromMessage_previousPosition (p : Player)
    (msg : PlayerSyncMessage) (now : ℚ) (mc : MapCoord)
    (hid : msg.playerID = p.playerID) (hmc : msg.mapCoord = some mc) :
    (p.updateFromMessage msg now).2.previousMapCoord =
        some (p.mapCoord.getD mc) ∧
    (p.mapCoord = none →
      (p.updateFromMessage msg now).2.previousMapCoord = some mc) ∧
    (∀ cur, p.mapCoord = some cur →
      (p.updateFromMessage msg now).2.lastMovingTime =
        if MapCoord.equalsTo mc cur then p.lastMovingTime else some now) := by
  rw [updateFromMessage_matched p msg now hid]
  refine ⟨?_, ?_, ?_⟩
  · simp [hmc]
  · intro h
    simp [hmc, h]
  · intro cur h
    simp [hmc, h]

/-- C1 (witness): the amended theorem evaluated on `c1Player` and
`c1Msg`. -/
theorem updateFromMessage_previousPosition_witness :
    (c1Player.updateFromMessage c1Msg 100).2.previousMapCoord =
      some (c1Player.mapCoord.getD { x := 6, y := 5 }) :=
  (updateFromMessage_previousPosition c1Player c1Msg 100 { x := 6, y := 5 }
    (by decide) (by decide)).1

/-- C3: applying a sync message with a foreign id returns `false` and
leaves the target player exactly unchanged; applying one with the
matching id returns `true`. -/
theorem updateFromMessage_id_check (p : Player) (msg : PlayerSyncMessage)
    (now : ℚ) :
    (msg.playerID ≠ p.playerID → p.updateFromMessage msg now = (false, p)) ∧
    (msg.playerID = p.playerID → (p.updateFromMessage msg now).1 = true) := by
  constructor
  · intro h
    simp [Player.updateFromMessage, h]
  · intro h
    rw [updateFromMessage_matched p msg now h]

/-- C3 (witness): the id-check theorem evaluated on a fresh player with a
foreign-id message and a matching-id message. -/
theorem updateFromMessage_id_check_witness :
    ((Player.create "p1").updateFromMessage c3Other 7 =
      (false, Player.create "p1")) ∧
    ((Player.create "p1").updateFromMessage c1Msg 7).1 = true :=
  ⟨(updateFromMessage_id_check (Player.create "p1") c3Other 7).1 (by decide),
   (updateFromMessage_id_check (Player.create "p1") c1Msg 7).2 (by decide)⟩

/-- C2 (counterexample): the round trip does not reproduce every field
that was present — `c2Player` carries `removed = true` (set by a sync
message), but `toJSON` only serializes the six `ATTRIBUTES` keys, so
after `fromObject` of its serialization `removed` is absent. -/
theorem roundTrip_cex :
    c2Player.removed = some true ∧
    (Player.fromObject c2Player.toJSON).removed = none := by decide

/-- C2 (amended): deserializing a serialized `PlayerSyncMessage` is the
identity; deserializing a serialized `Player` reproduces the six
`ATTRIBUTES` fields (`playerID`, `displayName`, `displayChar`,
`mapCoord`, `facing`, `lastMovingTime`) but drops `removed` (absent after
the round trip) and resets `previousPosition` to the deserialized
position.  Absent optional fields stay absent. -/
theorem roundTrip_amended :
    (∀ m : PlayerSyncMessage,
      PlayerSyncMessage.fromObject m.toJSON = m) ∧
    (∀ p : Player,
      Player.fromObject p.toJSON =
        { p with removed := none, previousMapCoord := p.mapCoord }) := by
  constructor
  · intro m
    obtain ⟨mid, mmc, mf, mdn, mdc, mrem, mct, mus⟩ := m
    cases mmc <;> cases mf <;> cases mdn <;> cases mdc <;> cases mct <;>
      cases mus <;> rfl
  · intro p
    obtain ⟨pid, pdn, pdc, pmc, pf, plmt, prm, pprev⟩ := p
    cases pmc <;> rfl

/-- C4: with `lastMoveTime = t0`, `previousPosition = P`, `position = Q`
and move interval `T > 0`, the interpolated draw pose has position `P` at
`now = t0`, position `Q` at `now = t0 + T`, and the componentwise
midpoint of `P` and `Q` at `now = t0 + T / 2`; `getDrawInfo` is a pure
function of the player and `now`, so the authoritative `mapCoord` field
is never modified by the pose computation. -/
theorem getDrawInfo_interpolation (p : Player) (t0 T : ℚ) (P Q : MapCoord)
    (hT : 0 < T) (hl : p.lastMovingTime = some t0)
    (hp : p.previousMapCoord = some P) (hq : p.mapCoord = some Q) :
    (p.getDrawInfo T t0).bind DrawInfo.mapCoord = some P ∧
    (p.getDrawInfo T (t0 + T)).bind DrawInfo.mapCoord = some Q ∧
    (p.getDrawInfo T (t0 + T / 2)).bind DrawInfo.mapCoord =
      some { x := (P.x + Q.x) / 2, y := (P.y + Q.y) / 2 } := by
  obtain ⟨Px, Py⟩ := P
  obtain ⟨Qx, Qy⟩ := Q
  have hTne : T ≠ 0 := ne_of_gt hT
  refine ⟨?_, ?_, ?_⟩
  · simp only [Player.getDrawInfo, hl, hp, hq]
    rw [if_pos (by linarith)]
    simp [MapCoord.mk.injEq, sub_self, zero_div]
  · simp only [Player.getDrawInfo, hl, hp, hq]
    rw [if_neg (by linarith)]
    rfl
  · simp only [Player.getDrawInfo, hl, hp, hq]
    rw [if_pos (by linarith)]
    dsimp only [Option.bind]
    simp [MapCoord.mk.injEq]
    constructor <;> · field_simp; ring

/-- C4 (witness): the interpolation theorem evaluated on `c1Player` with
`t0 = 0`, `T = 2`, `P = (5, 5)`, `Q = (6, 5)`. -/
theorem getDrawInfo_interpolation_witness :
    (c1Player.getDrawInfo 2 0).bind DrawInfo.mapCoord = some { x := 5, y := 5 } ∧
    (c1Player.getDrawInfo 2 (0 + 2)).bind DrawInfo.mapCoord = some { x := 6, y := 5 } ∧
    (c1Player.getDrawInfo 2 (0 + 2 / 2)).bind DrawInfo.mapCoord =
      some { x := (5 + 6) / 2, y := (5 + 5) / 2 } :=
  getDrawInfo_interpolation c1Player 0 2 { x := 5, y := 5 } { x := 6, y := 5 }
    (by norm_num) (by decide) (by decide) (by decide)

/-- C10: when `lastMovingTime` is unset (the player has never moved), the
draw pose at any `now` and any move interval is the authoritative
position and the base facing, unmodified — the interpolation and
walk-cycle branch is never taken (in the source `now < undefined + T` is
`now < NaN`, which is false). -/
theorem getDrawInfo_neverMoved (p : Player) (T now : ℚ)
    (hl : p.lastMovingTime = none) :
    p.getDrawInfo T now =
      some { mapCoord := p.mapCoord, displayChar := p.displayChar,
             facing := p.facing, displayName := p.displayName } := by
  simp [Player.getDrawInfo, hl]

/-- C10 (witness): the never-moved theorem evaluated on a freshly
constructed player. -/
theorem getDrawInfo_neverMoved_witness :
    (Player.create "p9").getDrawInfo 200 12345 =
      some { mapCoord := (Player.create "p9").mapCoord,
             displayChar := (Player.create "p9").displayChar,
             facing := (Player.create "p9").facing,
             displayName := (Player.create "p9").displayName } :=
  getDrawInfo_neverMoved (Player.create "p9") 200 12345 (by decide)

/-- C5 (counterexample): the claim says the failure of an individual
layer draw does not prevent the remaining layers from being invoked — but
when the ground layer reports `false`, the `&&=` sequence of `draw()`
short-circuits and the players layer is never invoked: the invocation
record is `[true, false]`, not `[true, true]`. -/
theorem draw_abort_cex :
    (MapRenderer.draw false true).2 = [true, false] ∧
    (MapRenderer.draw false true).2 ≠ [true, true] := by decide

/-- C5 (amended): `draw()` returns a boolean success flag — the
conjunction of the invoked layer results — but a layer reporting `false`
short-circuits the pass: the ground layer is always invoked, while the
players layer is invoked exactly when the ground layer reported `true`
(in the embedded source both layer draws always report `true`, so both
are then always invoked). -/
theorem draw_shortCircuit (g p : Bool) :
    MapRenderer.draw g p = (g && p, [true, g]) := by
  cases g <;> cases p <;> rfl

/-- C6: constructing a `PlayerSyncMessage` without an id fails with the
validation error logged by the source, producing no usable populated
instance (the source logs and returns before assigning any field);
constructing with a defined id succeeds and populates every field, with
`removed` defaulted to `false`. -/
theorem playerSyncMessage_construct_validates (pid : String)
    (mc : Option MapCoord) (f dn dc : Option String) (rm : Option Bool)
    (ct : Option ℚ) (us : Option Bool) :
    PlayerSyncMessage.construct none mc f dn dc rm ct us =
      Except.error "playerID of class PlayerSyncMessage should not be undefined." ∧
    PlayerSyncMessage.construct (some pid) mc f dn dc rm ct us =
      Except.ok
        { playerID := pid, mapCoord := mc, facing := f, displayName := dn,
          displayChar := dc, removed := rm.getD false, clientTime := ct,
          updateSuccess := us } :=
  ⟨rfl, rfl⟩

/-- C7: after registering `fog` at zIndex `5` and then `guidepost` at
zIndex `-10` (the guidepost registration constant of the extension), one
draw pass invokes `guidepost` before `fog`; in general the draw pass
invokes the registered layers in ascending `zIndex` order — the
invocation sequence is sorted by `zIndex` and is a permutation of the
registry. -/
theorem draw_layers_ascending_zIndex :
    (drawOrder (registerLayer (registerLayer [] 5 "fog" "fogDraw")
        LAYER_GUIDEPOST.zIndex LAYER_GUIDEPOST.layerName
        LAYER_GUIDEPOST.drawFnName)).map LayerEntry.layerName =
      ["guidepost", "fog"] ∧
    ∀ reg : List LayerEntry,
      List.Sorted layerLE (drawOrder reg) ∧ List.Perm (drawOrder reg) reg :=
  ⟨by decide,
   fun reg =>
     ⟨List.sorted_insertionSort layerLE reg,
      List.perm_insertionSort layerLE reg⟩⟩

/-- C8: `setViewerPosition` is the identity on requests inside
`[minX, maxX] x [minY, maxY]` (where `minX = (canvasWidth / 2) /
mapCellSize` and `maxX = mapWidth - minX`, symmetrically for `y`), and
whenever that range is non-degenerate the stored camera position lies
inside it. -/
theorem setViewerPosition_clamps (r : MapRenderer) (x y : ℚ) :
    ((r.minX ≤ x ∧ x ≤ r.maxX ∧ r.minY ≤ y ∧ y ≤ r.maxY) →
      (r.setViewerPosition x y).viewerX = x ∧
      (r.setViewerPosition x y).viewerY = y) ∧
    ((r.minX ≤ r.maxX ∧ r.minY ≤ r.maxY) →
      r.minX ≤ (r.setViewerPosition x y).viewerX ∧
      (r.setViewerPosition x y).viewerX ≤ r.maxX ∧
      r.minY ≤ (r.setViewerPosition x y).viewerY ∧
      (r.setViewerPosition x y).viewerY ≤ r.maxY) := by
  constructor
  · rintro ⟨h1, h2, h3, h4⟩
    dsimp only [MapRenderer.setViewerPosition]
    rw [max_eq_left h1, min_eq_left h2, max_eq_left h3, min_eq_left h4]
    exact ⟨rfl, rfl⟩
  · rintro ⟨hx, hy⟩
    dsimp only [MapRenderer.setViewerPosition]
    exact ⟨le_min (le_max_right x r.minX) hx, min_le_right _ _,
           le_min (le_max_right y r.minY) hy, min_le_right _ _⟩

/-- C8 (witness): the clamping theorem evaluated on `mr0` (range
`[1, 9]`): the inside request `(5, 5)` is stored unchanged, and the
outside request `(100, -3)` is stored inside the range. -/
theorem setViewerPosition_clamps_witness :
    ((mr0.setViewerPosition 5 5).viewerX = 5 ∧
     (mr0.setViewerPosition 5 5).viewerY = 5) ∧
    (mr0.minX ≤ (mr0.setViewerPosition 100 (-3)).viewerX ∧
     (mr0.setViewerPosition 100 (-3)).viewerX ≤ mr0.maxX ∧
     mr0.minY ≤ (mr0.setViewerPosition 100 (-3)).viewerY ∧
     (mr0.setViewerPosition 100 (-3)).viewerY ≤ mr0.maxY) :=
  ⟨(setViewerPosition_clamps mr0 5 5).1
      ⟨by norm_num [mr0, MapRenderer.minX, mapCellSize],
       by norm_num [mr0, MapRenderer.maxX, MapRenderer.minX, mapCellSize],
       by norm_num [mr0, MapRenderer.minY, mapCellSize],
       by norm_num [mr0, MapRenderer.maxY, MapRenderer.minY, mapCellSize]⟩,
   (setViewerPosition_clamps mr0 100 (-3)).2
      ⟨by norm_num [mr0, MapRenderer.maxX, MapRenderer.minX, mapCellSize],
       by norm_num [mr0, MapRenderer.maxY, MapRenderer.minY, mapCellSize]⟩⟩

/-- C9: for any canvas pixel `(px, py)` inside the canvas, converting to a
map coordinate with `canvasToMapCoordinate` and back with
`mapToCanvasCoordinate` yields a pixel differing from `(px, py)` by at
most one pixel in each component (the only loss is the final
`Math.floor`). -/
theorem canvasMap_roundTrip (r : MapRenderer) (px py : ℚ)
    (hx0 : 0 ≤ px) (hx1 : px ≤ r.canvasWidth)
    (hy0 : 0 ≤ py) (hy1 : py ≤ r.canvasHeight) :
    |(((r.mapToCanvasCoordinate (r.canvasToMapCoordinate px py).1
        (r.canvasToMapCoordinate px py).2).1 : ℤ) : ℚ) - px| ≤ 1 ∧
    |(((r.mapToCanvasCoordinate (r.canvasToMapCoordinate px py).1
        (r.canvasToMapCoordinate px py).2).2 : ℤ) : ℚ) - py| ≤ 1 := by
  have h32 : mapCellSize ≠ 0 := by rw [mapCellSize]; norm_num
  dsimp only [MapRenderer.canvasToMapCoordinate, MapRenderer.mapToCanvasCoordinate]
  have hargx : r.canvasWidth / 2 +
      (r.viewerX + (px - r.canvasWidth / 2) / mapCellSize - r.viewerX) *
        mapCellSize = px := by
    rw [add_sub_cancel_left, div_mul_cancel₀ _ h32]
    ring
  have hargy : r.canvasHeight / 2 +
      (r.viewerY + (py - r.canvasHeight / 2) / mapCellSize - r.viewerY) *
        mapCellSize = py := by
    rw [add_sub_cancel_left, div_mul_cancel₀ _ h32]
    ring
  rw [hargx, hargy]
  constructor
  · rw [abs_le]
    constructor
    · have h := Int.lt_floor_add_one px
      push_cast at h
      linarith
    · have h := Int.floor_le px
      linarith
  · rw [abs_le]
    constructor
    · have h := Int.lt_floor_add_one py
      push_cast at h
      linarith
    · have h := Int.floor_le py
      linarith

/-- C9 (witness): the round-trip theorem evaluated on `mr0` at the canvas
pixel `(10, 10)`. -/
theorem canvasMap_roundTrip_witness :
    |(((mr0.mapToCanvasCoordinate (mr0.canvasToMapCoordinate 10 10).1
        (mr0.canvasToMapCoordinate 10 10).2).1 : ℤ) : ℚ) - 10| ≤ 1 ∧
    |(((mr0.mapToCanvasCoordinate (mr0.canvasToMapCoordinate 10 10).1
        (mr0.canvasToMapCoordinate 10 10).2).2 : ℤ) : ℚ) - 10| ≤ 1 :=
  canvasMap_roundTrip mr0 10 10 (by norm_num) (by norm_num [mr0])
    (by norm_num) (by norm_num [mr0])
